import Mathlib

/-!
Shallow embedding of the resilient HTTP transport core of bborbe/http:
the transient-error classifier (http_errors.go), the retrying round tripper
(http_roundtripper-retry.go), the redirect policy and TLS configuration of the
client builder (http_client-builder.go, http_roundtripper-default.go).

Modelling conventions:
- Go errors are an inductive type: the four sentinel errors that IsRetryError
  matches, a generic error, an error implementing the HasTimeoutError
  capability, and a wrapping constructor (errors.Wrap keeps the cause).
- The request context is modelled as never cancelled: ctx.Err() is nil and the
  cancellable sleep in delay() always completes.  retryDelay therefore has no
  effect on control flow, exactly as in the source, where it only decides
  whether to sleep.
- The unbounded retry loop of RoundTrip is given explicit fuel (a maximum
  number of attempts); the outcome `stuck` means the Go loop would still be
  running after that many attempts.
- Byte slices are lists of naturals; io.ReadAll of a body stream yields its
  bytes and cannot fail in the model.
-/

/-- Go errors as seen by this package: the four sentinels checked by
IsRetryError, generic errors, errors implementing the HasTimeoutError
capability (Timeout() bool), and wrapped errors (errors.Wrap keeps the cause
reachable for errors.Is). -/
inductive GoError where
  | eof
  | econnrefused
  | deadlineExceeded
  | errHandlerTimeout
  | generic (msg : String)
  | timeoutCapable (timeout : Bool)
  | wrap (msg : String) (cause : GoError)
deriving DecidableEq, Repr

/-- Go stdlib errors.Is: the target is compared against every error of the
unwrap chain. -/
def errorsIs (e target : GoError) : Bool :=
  (e == target) ||
    match e with
    | .wrap _ cause => errorsIs cause target
    | _ => false

/-- Modelled from the spec: liberrors.Unwrap from the external dependency
github.com/bborbe/errors (not part of this repository).  The spec states the
timeout-capability check applies "after unwrapping one level", so this removes
one wrapping layer and yields none (Go nil) when the error wraps nothing. -/
def liberrorsUnwrap : GoError → Option GoError
  | .wrap _ cause => some cause
  | _ => none

/-- http_errors.go IsRetryError: true for (possibly wrapped) io.EOF,
syscall.ECONNREFUSED, context.DeadlineExceeded, http.ErrHandlerTimeout, or
when liberrors.Unwrap(err) implements HasTimeoutError, in which case
Timeout() is returned.  It receives only the error: HTTP status codes are not
an input. -/
def IsRetryError (err : GoError) : Bool :=
  if errorsIs err .eof then true
  else if errorsIs err .econnrefused then true
  else if errorsIs err .deadlineExceeded then true
  else if errorsIs err .errHandlerTimeout then true
  else
    match liberrorsUnwrap err with
    | some (.timeoutCapable b) => b
    | _ => false

/-- http_roundtripper-retry.go PreventRetryHeaderName. -/
def PreventRetryHeaderName : String := "X-Prevent-Retry"

/-- http_roundtripper-retry.go defaultSkipStatusCodes: 400 Bad Request,
401 Unauthorized, 404 Not Found. -/
def defaultSkipStatusCodes : List Int := [400, 401, 404]

/-- http_roundtripper-retry.go toStatusCodeMap: membership in the skip list,
as the Go map built from it answers lookups. -/
def toStatusCodeMap (skipStatusCodes : List Int) (code : Int) : Bool :=
  skipStatusCodes.contains code

/-- An outbound request: its headers (canonical keys) and optional body bytes. -/
structure GoRequest where
  headers : List (String × String)
  body : Option (List Nat)
deriving DecidableEq, Repr

/-- Go http.Header.Get: first value for the key, or the empty string. -/
def headerGet (headers : List (String × String)) (key : String) : String :=
  match headers.find? (fun p => p.1 == key) with
  | some p => p.2
  | none => ""

/-- The retryRoundTripper configuration: retry limit (Go int), retry delay in
nanoseconds (only decides whether delay() sleeps), and the skip status codes
the map is built from. -/
structure RetryRoundTripper where
  retryLimit : Int
  retryDelay : Int
  skipStatusCodes : List Int
deriving DecidableEq, Repr

/-- What one call of the inner round tripper produces. -/
inductive InnerResult where
  | response (statusCode : Int)
  | failure (err : GoError)
deriving DecidableEq, Repr

/-- Outcome of retryRoundTripper.RoundTrip under bounded fuel: a response, a
(possibly wrapped) error, or `stuck` when the Go loop would still be running
after the given number of attempts. -/
inductive RoundTripOutcome where
  | response (statusCode : Int)
  | failure (err : GoError)
  | stuck
deriving DecidableEq, Repr

/-- http_roundtripper-retry.go shouldRetryError: the error is retryable and
the counter is still below the limit. -/
def shouldRetryError (r : RetryRoundTripper) (err : GoError) (retryCounter : Nat) : Bool :=
  IsRetryError err && decide ((retryCounter : Int) < r.retryLimit)

/-- http_roundtripper-retry.go shouldRetryStatusCode: codes below 400 and
codes in the skip map are never retried; when the counter equals the limit the
result is whether the code is 502, 503 or 504; otherwise true. -/
def shouldRetryStatusCode (r : RetryRoundTripper) (statusCode : Int) (retryCounter : Nat) : Bool :=
  if statusCode < 400 then false
  else if toStatusCodeMap r.skipStatusCodes statusCode then false
  else if r.retryLimit = (retryCounter : Int) then
    decide (statusCode = 502) || decide (statusCode = 503) || decide (statusCode = 504)
  else true

/-- http_roundtripper-retry.go readRequestBody: nil body stays nil, otherwise
io.ReadAll yields the body bytes (read exactly once, before the first
attempt). -/
def readRequestBody (req : GoRequest) : Option (List Nat) :=
  req.body

/-- The request executeRequest hands to the inner round tripper: a clone of
the original whose body, when the original had one, is a fresh
io.NopCloser(bytes.NewBuffer(body)) over the buffered bytes. -/
def clonedRequest (req : GoRequest) (body : Option (List Nat)) : GoRequest :=
  { headers := req.headers
    body := match req.body with
            | none => none
            | some _ => body }

/-- http_roundtripper-retry.go executeRequest: clone the request, attach a
fresh reader over the buffered body, call the inner round tripper.  The inner
executor is indexed by the attempt number so that mock-style executors can
answer differently per attempt; it also receives the request it observes,
which is returned for trace bookkeeping. -/
def executeRequest (inner : Nat → GoRequest → InnerResult) (attempt : Nat)
    (req : GoRequest) (body : Option (List Nat)) : InnerResult × GoRequest :=
  let reqCloned := clonedRequest req body
  (inner attempt reqCloned, reqCloned)

/-- The retry loop of RoundTrip (the for loop together with attemptRequest,
handleRequestError and handleRequestResponse), with the never-cancelled
context.  Returns the outcome and the list of requests the inner round
tripper observed, oldest first; `fuel` bounds the number of attempts and
running out of it yields `stuck`. -/
def retryLoop (r : RetryRoundTripper) (inner : Nat → GoRequest → InnerResult)
    (req : GoRequest) (body : Option (List Nat)) :
    Nat → Nat → Nat → RoundTripOutcome × List GoRequest
  | 0, _, _ => (.stuck, [])
  | fuel + 1, attempt, retryCounter =>
    match executeRequest inner attempt req body with
    | (.failure e, reqCloned) =>
      if shouldRetryError r e retryCounter then
        let rest := retryLoop r inner req body fuel (attempt + 1) (retryCounter + 1)
        (rest.1, reqCloned :: rest.2)
      else
        (.failure (.wrap "roundtrip failed" e), [reqCloned])
    | (.response s, reqCloned) =>
      if shouldRetryStatusCode r s retryCounter then
        let rest := retryLoop r inner req body fuel (attempt + 1) (retryCounter + 1)
        (rest.1, reqCloned :: rest.2)
      else
        (.response s, [reqCloned])

/-- http_roundtripper-retry.go RoundTrip: when the prevent-retry header is
present with a non-empty value the inner round tripper is called once with
the original request and its result is returned untouched; otherwise the body
is buffered once and the retry loop runs with counter 0. -/
def RoundTrip (r : RetryRoundTripper) (inner : Nat → GoRequest → InnerResult)
    (req : GoRequest) (fuel : Nat) : RoundTripOutcome × List GoRequest :=
  if headerGet req.headers PreventRetryHeaderName ≠ "" then
    match inner 0 req with
    | .response s => (.response s, [req])
    | .failure e => (.failure e, [req])
  else
    retryLoop r inner req (readRequestBody req) fuel 0 0

/-- What the CheckRedirect callback built by the client builder answers on one
redirect hop: nil (allow the hop), the http.ErrUseLastResponse sentinel, or
the wrapped ErrTooManyRedirects error carrying its message. -/
inductive RedirectDecision where
  | allow
  | useLastResponse
  | tooManyRedirects (limit : Int) (msg : String)
deriving DecidableEq, Repr

/-- The message errors.Wrapf formats for ErrTooManyRedirects:
"stopped after %d redirects" with the configured limit. -/
def tooManyRedirectsMessage (limit : Int) : String :=
  "stopped after " ++ toString limit ++ " redirects"

/-- http_client-builder.go createCheckRedirect: switch on maxRedirect, case -1
always allows, case 0 always answers http.ErrUseLastResponse, and the default
branch fails with the wrapped ErrTooManyRedirects once len(via) has reached
the limit, allowing the hop otherwise.  viaCount is len(via), the number of
requests already made in the redirect chain. -/
def createCheckRedirect (maxRedirect : Int) (viaCount : Nat) : RedirectDecision :=
  if maxRedirect = -1 then .allow
  else if maxRedirect = 0 then .useLastResponse
  else if maxRedirect ≤ (viaCount : Int) then
    .tooManyRedirects maxRedirect (tooManyRedirectsMessage maxRedirect)
  else .allow

/-- crypto/tls VersionTLS12 (0x0303). -/
def versionTLS12 : Nat := 771

/-- The observable shape of a tls.Config built by this package: the minimum
protocol version, the InsecureSkipVerify flag, and whether client-certificate
material (Certificates) and a trust root (RootCAs) were installed. -/
structure TLSConfig where
  minVersion : Nat
  insecureSkipVerify : Bool
  hasClientCert : Bool
  hasRootCAs : Bool
deriving DecidableEq, Repr

/-- http_roundtripper-default.go CreateTLSClientConfig: load the client
certificate and key, read the CA file, append it to a fresh pool, and on
success build a config with the client certificate, the CA pool,
InsecureSkipVerify false and MinVersion TLS 1.2.  The three Booleans are the
outcomes of the file-system and parsing steps, which the model does not
perform. -/
def CreateTLSClientConfig (certLoadOk caReadOk caAppendOk : Bool) : Except String TLSConfig :=
  if !certLoadOk then .error "load client certificate and key failed"
  else if !caReadOk then .error "read CA certificate failed"
  else if !caAppendOk then .error "append CA certificate to pool failed"
  else .ok { minVersion := versionTLS12
             insecureSkipVerify := false
             hasClientCert := true
             hasRootCAs := true }

/-- The fields of httpClientBuilder that decide its TLS configuration. -/
structure HttpClientBuilderState where
  insecureSkipVerify : Bool
  caCertPath : String
  clientCertPath : String
  clientKeyPath : String
deriving DecidableEq, Repr

/-- http_client-builder.go createTLSConfig: start from a config whose only
setting is MinVersion TLS 1.2; when all three of caCertPath, clientCertPath
and clientKeyPath are non-empty replace it by the result of CreateTLSClientConfig,
propagating its error wrapped; finally set InsecureSkipVerify from the
builder on whichever config is in hand. -/
def createTLSConfig (b : HttpClientBuilderState)
    (certLoadOk caReadOk caAppendOk : Bool) : Except String TLSConfig :=
  let base : TLSConfig :=
    { minVersion := versionTLS12
      insecureSkipVerify := false
      hasClientCert := false
      hasRootCAs := false }
  if b.caCertPath ≠ "" ∧ b.clientCertPath ≠ "" ∧ b.clientKeyPath ≠ "" then
    match CreateTLSClientConfig certLoadOk caReadOk caAppendOk with
    | .error e => .error ("create tls config failed: " ++ e)
    | .ok c => .ok { c with insecureSkipVerify := b.insecureSkipVerify }
  else
    .ok { base with insecureSkipVerify := b.insecureSkipVerify }

/-- A transport configured with retry limit 2 and a positive delay, as in the
P4 scenario of the spec. -/
def retryLimit2Transport : RetryRoundTripper :=
  { retryLimit := 2, retryDelay := 1, skipStatusCodes := defaultSkipStatusCodes }

/-- A transport configured with retry limit 0 and a positive delay. -/
def zeroLimitTransport : RetryRoundTripper :=
  { retryLimit := 0, retryDelay := 5, skipStatusCodes := defaultSkipStatusCodes }

/-- A transport configured with retry limit 3 and retry delay 0. -/
def zeroDelayTransport : RetryRoundTripper :=
  { retryLimit := 3, retryDelay := 0, skipStatusCodes := defaultSkipStatusCodes }

/-- An inner executor that answers 503 Service Unavailable on every attempt. -/
def always503 : Nat → GoRequest → InnerResult := fun _ _ => .response 503

/-- An inner executor that fails with io.EOF on every attempt. -/
def alwaysEOF : Nat → GoRequest → InnerResult := fun _ _ => .failure .eof

/-- A request without headers and without a body. -/
def plainRequest : GoRequest := { headers := [], body := none }

/-- A request carrying the prevent-retry header with a non-empty value. -/
def headeredRequest : GoRequest :=
  { headers := [(PreventRetryHeaderName, "true")], body := none }

theorem retryLoop_succ_failure (r : RetryRoundTripper) (inner : Nat → GoRequest → InnerResult)
    (req : GoRequest) (body : Option (List Nat)) (fuel attempt retryCounter : Nat)
    (e : GoError) (h : inner attempt (clonedRequest req body) = .failure e) :
    retryLoop r inner req body (fuel + 1) attempt retryCounter =
      (if shouldRetryError r e retryCounter then
        ((retryLoop r inner req body fuel (attempt + 1) (retryCounter + 1)).1,
         clonedRequest req body ::
           (retryLoop r inner req body fuel (attempt + 1) (retryCounter + 1)).2)
      else
        (.failure (.wrap "roundtrip failed" e), [clonedRequest req body])) := by
  simp only [retryLoop, executeRequest, h]

theorem retryLoop_succ_response (r : RetryRoundTripper) (inner : Nat → GoRequest → InnerResult)
    (req : GoRequest) (body : Option (List Nat)) (fuel attempt retryCounter : Nat)
    (s : Int) (h : inner attempt (clonedRequest req body) = .response s) :
    retryLoop r inner req body (fuel + 1) attempt retryCounter =
      (if shouldRetryStatusCode r s retryCounter then
        ((retryLoop r inner req body fuel (attempt + 1) (retryCounter + 1)).1,
         clonedRequest req body ::
           (retryLoop r inner req body fuel (attempt + 1) (retryCounter + 1)).2)
      else
        (.response s, [clonedRequest req body])) := by
  simp only [retryLoop, executeRequest, h]

theorem errorsIs_self (e : GoError) : errorsIs e e = true := by
  unfold errorsIs
  simp

theorem errorsIs_wrap (msg : String) (e : GoError) :
    errorsIs (.wrap msg e) e = true := by
  unfold errorsIs
  simp [errorsIs_self]

theorem retryLoop_trace_mem (r : RetryRoundTripper) (inner : Nat → GoRequest → InnerResult)
    (req : GoRequest) (body : Option (List Nat)) :
    ∀ (fuel attempt retryCounter : Nat) (q : GoRequest),
      q ∈ (retryLoop r inner req body fuel attempt retryCounter).2 →
      q = clonedRequest req body := by
  intro fuel
  induction fuel with
  | zero =>
    intro a c q hq
    simp [retryLoop] at hq
  | succ n ih =>
    intro a c q hq
    cases hres : inner a (clonedRequest req body)
    case response s =>
      rw [retryLoop_succ_response r inner req body n a c s hres] at hq
      by_cases hr : shouldRetryStatusCode r s c = true
      · rw [if_pos hr] at hq
        rcases List.mem_cons.mp hq with h | h
        · exact h
        · exact ih (a + 1) (c + 1) q h
      · rw [if_neg hr] at hq
        simpa using hq
    case failure e =>
      rw [retryLoop_succ_failure r inner req body n a c e hres] at hq
      by_cases hr : shouldRetryError r e c = true
      · rw [if_pos hr] at hq
        rcases List.mem_cons.mp hq with h | h
        · exact h
        · exact ih (a + 1) (c + 1) q h
      · rw [if_neg hr] at hq
        simpa using hq

theorem retryLoop_persistent_failure (r : RetryRoundTripper)
    (inner : Nat → GoRequest → InnerResult) (req : GoRequest)
    (body : Option (List Nat)) (e : GoError) (N : Nat)
    (hinner : ∀ i q, inner i q = .failure e)
    (hretry : IsRetryError e = true)
    (hlimit : r.retryLimit = (N : Int)) :
    ∀ (fuel attempt retryCounter : Nat),
      retryCounter ≤ N → N - retryCounter < fuel →
      retryLoop r inner req body fuel attempt retryCounter =
        (.failure (.wrap "roundtrip failed" e),
         List.replicate (N - retryCounter + 1) (clonedRequest req body)) := by
  intro fuel
  induction fuel with
  | zero =>
    intro a c hc hf
    omega
  | succ n ih =>
    intro a c hc hf
    rw [retryLoop_succ_failure r inner req body n a c e (hinner a (clonedRequest req body))]
    by_cases hcN : c < N
    · have hretrying : shouldRetryError r e c = true := by
        simp only [shouldRetryError, hretry, Bool.true_and, decide_eq_true_eq, hlimit]
        exact_mod_cast hcN
      rw [if_pos hretrying, ih (a + 1) (c + 1) (by omega) (by omega)]
      have hrep : N - c + 1 = (N - (c + 1) + 1) + 1 := by omega
      rw [hrep]
      simp [List.replicate_succ]
    · have hceq : c = N := by omega
      have hnoretry : ¬shouldRetryError r e c = true := by
        simp only [shouldRetryError, hretry, Bool.true_and, decide_eq_true_eq, hlimit, hceq]
        omega
      rw [if_neg hnoretry]
      have hone : N - c + 1 = 1 := by omega
      rw [hone]
      rfl

theorem shouldRetryStatusCode_503_always (c : Nat) :
    shouldRetryStatusCode retryLimit2Transport 503 c = true := by
  unfold shouldRetryStatusCode
  split_ifs with h1 h2 h3
  · exact absurd h1 (by norm_num [retryLimit2Transport])
  · exact absurd h2 (by decide)
  · decide
  · rfl

theorem retryLoop_always503_stuck :
    ∀ (fuel attempt retryCounter : Nat),
      retryLoop retryLimit2Transport always503 plainRequest none fuel attempt retryCounter =
        (.stuck, List.replicate fuel plainRequest) := by
  intro fuel
  induction fuel with
  | zero => intro a c; rfl
  | succ n ih =>
    intro a c
    rw [retryLoop_succ_response retryLimit2Transport always503 plainRequest none n a c 503 rfl]
    rw [if_pos (shouldRetryStatusCode_503_always c), ih (a + 1) (c + 1)]
    simp [List.replicate_succ]
    rfl

/-- C1: refuted on the code (code bug).  The spec demands that with retry
limit 2 and an inner executor always answering 503, the transport makes
exactly 3 attempts and returns the 503 response.  In the source,
shouldRetryStatusCode answers true for 502/503/504 when the counter has
reached the limit, and true for every counter beyond the limit, so the loop
retries on every attempt: for every fuel bound the call is still stuck and
has used up all `fuel` attempts, never returning the response. -/
theorem c1_gateway_at_limit_loops_forever (fuel : Nat) :
    (RoundTrip retryLimit2Transport always503 plainRequest fuel).1 = .stuck ∧
    (RoundTrip retryLimit2Transport always503 plainRequest fuel).2.length = fuel := by
  unfold RoundTrip
  rw [if_neg (by decide)]
  rw [show readRequestBody plainRequest = none from rfl]
  rw [retryLoop_always503_stuck fuel 0 0]
  simp

/-- C5: confirmed.  IsRetryError answers true exactly when the error is a
(possibly wrapped) io.EOF, syscall.ECONNREFUSED, context.DeadlineExceeded or
http.ErrHandlerTimeout, or when after unwrapping one level it implements the
Timeout() capability and that capability reports true; every other error,
generic application errors included, yields false.  The input of the classifier is
only the error, so HTTP status codes are never consulted. -/
theorem c5_isRetryError_characterisation (e : GoError) :
    IsRetryError e = true ↔
      (errorsIs e .eof = true ∨ errorsIs e .econnrefused = true ∨
       errorsIs e .deadlineExceeded = true ∨ errorsIs e .errHandlerTimeout = true ∨
       liberrorsUnwrap e = some (.timeoutCapable true)) := by
  unfold IsRetryError
  split_ifs with h1 h2 h3 h4
  · simp [h1]
  · simp [h2]
  · simp [h3]
  · simp [h4]
  · simp only [h1, h2, h3, h4, false_or]
    cases h : liberrorsUnwrap e with
    | none => simp
    | some c => cases c <;> simp

/-- C2: refuted as stated.  A transport constructed with retryLimit 3 and
retryDelay 0 still retries a persistent transient error, making 4 attempts
instead of the claimed single one (retryDelay only decides whether delay()
sleeps, it is never consulted by shouldRetryError or shouldRetryStatusCode);
and a transport constructed with retryLimit 0 and a positive delay keeps
retrying a persistent 503 (10 attempts of fuel 10 are all used), because
shouldRetryStatusCode answers true for gateway codes when the counter equals
the limit. -/
theorem c2_zero_values_still_retry_counterexample :
    (RoundTrip zeroDelayTransport alwaysEOF plainRequest 10).2.length = 4 ∧
    (RoundTrip zeroLimitTransport always503 plainRequest 10).2.length = 10 ∧
    (RoundTrip zeroLimitTransport always503 plainRequest 10).1 = .stuck := by
  refine ⟨by decide, by decide, by decide⟩

/-- C2 amended: with retryLimit 0 the transport performs exactly one attempt
whenever the inner executor fails with any error or answers any status code
other than 502, 503 and 504; retryDelay 0 does not disable retrying (a
transport with retryLimit 3 and retryDelay 0 makes 4 attempts on persistent
transient errors), and a 502/503/504 response is still retried even with
retryLimit 0. -/
theorem c2_amended_zero_limit_single_attempt :
    (∀ (retryDelay : Int) (skip : List Int) (inner : Nat → GoRequest → InnerResult)
       (req : GoRequest) (fuel : Nat),
       headerGet req.headers PreventRetryHeaderName = "" → 1 ≤ fuel →
       ((∀ e : GoError, inner 0 (clonedRequest req (readRequestBody req)) = .failure e →
          RoundTrip ⟨0, retryDelay, skip⟩ inner req fuel =
            (.failure (.wrap "roundtrip failed" e),
             [clonedRequest req (readRequestBody req)])) ∧
        (∀ s : Int, inner 0 (clonedRequest req (readRequestBody req)) = .response s →
          s ≠ 502 → s ≠ 503 → s ≠ 504 →
          RoundTrip ⟨0, retryDelay, skip⟩ inner req fuel =
            (.response s, [clonedRequest req (readRequestBody req)])))) ∧
    (RoundTrip zeroDelayTransport alwaysEOF plainRequest 10).2.length = 4 ∧
    (RoundTrip zeroLimitTransport always503 plainRequest 10).2.length = 10 := by
  refine ⟨?_, by decide, by decide⟩
  intro d skip inner req fuel hh hf
  obtain ⟨n, rfl⟩ : ∃ n, fuel = n + 1 := ⟨fuel - 1, by omega⟩
  constructor
  · intro e he
    unfold RoundTrip
    rw [if_neg (by simp [hh])]
    rw [retryLoop_succ_failure ⟨0, d, skip⟩ inner req (readRequestBody req) n 0 0 e he]
    have hno : ¬shouldRetryError ⟨0, d, skip⟩ e 0 = true := by
      simp [shouldRetryError]
    rw [if_neg hno]
  · intro s hs h2 h3 h4
    unfold RoundTrip
    rw [if_neg (by simp [hh])]
    rw [retryLoop_succ_response ⟨0, d, skip⟩ inner req (readRequestBody req) n 0 0 s hs]
    have hno : ¬shouldRetryStatusCode ⟨0, d, skip⟩ s 0 = true := by
      unfold shouldRetryStatusCode
      split_ifs <;> simp_all
    rw [if_neg hno]

/-- Witness for the C2 amended theorem: with retryLimit 0 and retryDelay 7, a
persistent io.EOF yields one single attempt wrapped as "roundtrip failed". -/
theorem c2_amended_zero_limit_single_attempt_witness :
    RoundTrip ⟨0, 7, defaultSkipStatusCodes⟩ alwaysEOF plainRequest 5 =
      (.failure (.wrap "roundtrip failed" .eof), [plainRequest]) :=
  (c2_amended_zero_limit_single_attempt.1 7 defaultSkipStatusCodes alwaysEOF plainRequest 5
    rfl (by omega)).1 .eof rfl

/-- C3: confirmed.  For every retry limit N and an inner executor failing with
the same retryable error e on every attempt, the transport performs exactly
N + 1 attempts and returns the error wrapped as "roundtrip failed", and the
original cause e is still detected through the wrapping by errors.Is. -/
theorem c3_transient_error_bounded_attempts_wrapped
    (N : Nat) (retryDelay : Int) (skip : List Int)
    (inner : Nat → GoRequest → InnerResult) (req : GoRequest) (e : GoError) (fuel : Nat)
    (hheader : headerGet req.headers PreventRetryHeaderName = "")
    (hinner : ∀ i q, inner i q = .failure e)
    (hretry : IsRetryError e = true)
    (hfuel : N + 1 ≤ fuel) :
    RoundTrip ⟨(N : Int), retryDelay, skip⟩ inner req fuel =
      (.failure (.wrap "roundtrip failed" e),
       List.replicate (N + 1) (clonedRequest req (readRequestBody req))) ∧
    (RoundTrip ⟨(N : Int), retryDelay, skip⟩ inner req fuel).2.length = N + 1 ∧
    errorsIs (.wrap "roundtrip failed" e) e = true := by
  have hloop := retryLoop_persistent_failure ⟨(N : Int), retryDelay, skip⟩ inner req
    (readRequestBody req) e N hinner hretry rfl fuel 0 0 (by omega) (by omega)
  have hrt : RoundTrip ⟨(N : Int), retryDelay, skip⟩ inner req fuel =
      (.failure (.wrap "roundtrip failed" e),
       List.replicate (N + 1) (clonedRequest req (readRequestBody req))) := by
    unfold RoundTrip
    rw [if_neg (by simp [hheader])]
    simpa using hloop
  refine ⟨hrt, ?_, errorsIs_wrap "roundtrip failed" e⟩
  rw [hrt]
  simp

/-- Witness for C3: retry limit 1 with a persistent io.EOF gives exactly 2
attempts and the wrapped error whose cause errors.Is still finds. -/
theorem c3_transient_error_bounded_attempts_wrapped_witness :
    RoundTrip ⟨((1 : Nat) : Int), 9, defaultSkipStatusCodes⟩ alwaysEOF plainRequest 2 =
      (.failure (.wrap "roundtrip failed" .eof), List.replicate 2 plainRequest) ∧
    (RoundTrip ⟨((1 : Nat) : Int), 9, defaultSkipStatusCodes⟩ alwaysEOF plainRequest 2).2.length
      = 1 + 1 ∧
    errorsIs (.wrap "roundtrip failed" .eof) .eof = true :=
  c3_transient_error_bounded_attempts_wrapped 1 9 defaultSkipStatusCodes alwaysEOF plainRequest
    .eof 2 rfl (fun _ _ => rfl) (by decide) (by omega)

/-- C4: confirmed.  The redirect-decision function built from the configured
budget is a pure tri-state function of the chain length: budget -1 always
allows, budget 0 always answers the use-last-response sentinel, and budget
N greater than 0 allows while fewer than N prior requests are in the chain and
answers the too-many-redirects error once the chain reaches N, with a message
naming the configured limit. -/
theorem c4_redirect_decision_tristate (maxRedirect : Int) (viaCount : Nat) :
    (maxRedirect = -1 → createCheckRedirect maxRedirect viaCount = .allow) ∧
    (maxRedirect = 0 → createCheckRedirect maxRedirect viaCount = .useLastResponse) ∧
    (0 < maxRedirect →
      ((viaCount : Int) < maxRedirect → createCheckRedirect maxRedirect viaCount = .allow) ∧
      (maxRedirect ≤ (viaCount : Int) →
        createCheckRedirect maxRedirect viaCount =
          .tooManyRedirects maxRedirect (tooManyRedirectsMessage maxRedirect) ∧
        tooManyRedirectsMessage maxRedirect =
          "stopped after " ++ toString maxRedirect ++ " redirects")) := by
  refine ⟨?_, ?_, ?_⟩
  · intro h
    simp [createCheckRedirect, h]
  · intro h
    simp [createCheckRedirect, h]
  · intro h
    constructor
    · intro hlt
      unfold createCheckRedirect
      rw [if_neg (by omega), if_neg (by omega), if_neg (by omega)]
    · intro hge
      refine ⟨?_, rfl⟩
      unfold createCheckRedirect
      rw [if_neg (by omega), if_neg (by omega), if_pos hge]

/-- Witness for C4 at budgets -1, 0 and 3: unbounded always allows, disabled
always answers use-last-response, and budget 3 allows at chain length 2 but
fails with the error naming 3 at chain length 3. -/
theorem c4_redirect_decision_tristate_witness :
    createCheckRedirect (-1) 5 = .allow ∧
    createCheckRedirect 0 5 = .useLastResponse ∧
    createCheckRedirect 3 2 = .allow ∧
    createCheckRedirect 3 3 = .tooManyRedirects 3 (tooManyRedirectsMessage 3) :=
  ⟨(c4_redirect_decision_tristate (-1) 5).1 rfl,
   (c4_redirect_decision_tristate 0 5).2.1 rfl,
   ((c4_redirect_decision_tristate 3 2).2.2 (by norm_num)).1 (by norm_num),
   (((c4_redirect_decision_tristate 3 3).2.2 (by norm_num)).2 (by norm_num)).1⟩

/-- C6: confirmed.  The default skip list is exactly 400, 401, 404; and
whenever the first inner answer is a response whose status is below 400 or in
the configured skip set, the transport makes exactly one attempt whatever the
retry limit and returns that response unmodified. -/
theorem c6_below_400_and_skip_set_single_attempt :
    defaultSkipStatusCodes = [400, 401, 404] ∧
    ∀ (r : RetryRoundTripper) (inner : Nat → GoRequest → InnerResult)
      (req : GoRequest) (fuel : Nat) (s : Int),
      headerGet req.headers PreventRetryHeaderName = "" →
      1 ≤ fuel →
      inner 0 (clonedRequest req (readRequestBody req)) = .response s →
      (s < 400 ∨ toStatusCodeMap r.skipStatusCodes s = true) →
      RoundTrip r inner req fuel =
        (.response s, [clonedRequest req (readRequestBody req)]) := by
  refine ⟨rfl, ?_⟩
  intro r inner req fuel s hh hf hres hs
  obtain ⟨n, rfl⟩ : ∃ n, fuel = n + 1 := ⟨fuel - 1, by omega⟩
  unfold RoundTrip
  rw [if_neg (by simp [hh])]
  rw [retryLoop_succ_response r inner req (readRequestBody req) n 0 0 s hres]
  have hno : ¬shouldRetryStatusCode r s 0 = true := by
    unfold shouldRetryStatusCode
    rcases hs with hs | hs
    · rw [if_pos hs]
      simp
    · split_ifs <;> simp_all
  rw [if_neg hno]

/-- Witness for C6: a 404 answer under retry limit 3 yields exactly one
attempt and the 404 response. -/
theorem c6_below_400_and_skip_set_single_attempt_witness :
    RoundTrip zeroDelayTransport (fun _ _ => .response 404) plainRequest 8 =
      (.response 404, [plainRequest]) :=
  c6_below_400_and_skip_set_single_attempt.2 zeroDelayTransport (fun _ _ => .response 404)
    plainRequest 8 404 rfl (by omega) rfl (Or.inr (by decide))

/-- C7: confirmed.  A request carrying the prevent-retry header with a
non-empty value makes the transport call the inner executor exactly once with
the original request and hand back its result untouched, whatever the
configured limit and delay and even when the single answer is a transient
error. -/
theorem c7_prevent_retry_header_bypasses
    (r : RetryRoundTripper) (inner : Nat → GoRequest → InnerResult)
    (req : GoRequest) (fuel : Nat)
    (h : headerGet req.headers PreventRetryHeaderName ≠ "") :
    (RoundTrip r inner req fuel).2 = [req] ∧
    (RoundTrip r inner req fuel).1 =
      (match inner 0 req with
       | .response s => RoundTripOutcome.response s
       | .failure e => RoundTripOutcome.failure e) := by
  unfold RoundTrip
  rw [if_pos h]
  cases inner 0 req <;> simp

/-- Witness for C7: with retry limit 5 configured and an inner executor that
fails with io.EOF, the header-carrying request is attempted exactly once and
the raw error comes back. -/
theorem c7_prevent_retry_header_bypasses_witness :
    (RoundTrip ⟨5, 1, defaultSkipStatusCodes⟩ alwaysEOF headeredRequest 9).2 =
      [headeredRequest] ∧
    (RoundTrip ⟨5, 1, defaultSkipStatusCodes⟩ alwaysEOF headeredRequest 9).1 =
      (match alwaysEOF 0 headeredRequest with
       | .response s => RoundTripOutcome.response s
       | .failure e => RoundTripOutcome.failure e) :=
  c7_prevent_retry_header_bypasses ⟨5, 1, defaultSkipStatusCodes⟩ alwaysEOF headeredRequest 9
    (by decide)

/-- C8: confirmed.  For a request with a non-nil body the body bytes are
buffered once, before the first attempt (readRequestBody, called once in
RoundTrip), and every request the inner executor observes across all attempts
carries exactly those bytes, each attempt getting its own fresh reader over
them (bytes.NewBuffer in executeRequest). -/
theorem c8_body_replay
    (r : RetryRoundTripper) (inner : Nat → GoRequest → InnerResult)
    (req : GoRequest) (bs : List Nat) (fuel : Nat)
    (hbody : req.body = some bs) :
    ∀ q ∈ (RoundTrip r inner req fuel).2, q.body = some bs := by
  intro q hq
  unfold RoundTrip at hq
  by_cases hh : headerGet req.headers PreventRetryHeaderName ≠ ""
  · rw [if_pos hh] at hq
    have hq2 : q = req := by
      cases hres : inner 0 req <;> rw [hres] at hq <;> simpa using hq
    rw [hq2, hbody]
  · rw [if_neg hh] at hq
    have hcl := retryLoop_trace_mem r inner req (readRequestBody req) fuel 0 0 q hq
    rw [hcl]
    simp [clonedRequest, readRequestBody, hbody]

/-- A request with body bytes 1, 2, 3. -/
def bodyRequest : GoRequest := { headers := [], body := some [1, 2, 3] }

/-- Witness for C8: under retry limit 1 with persistent io.EOF, the cloned
request of each attempt carries the buffered bytes 1, 2, 3. -/
theorem c8_body_replay_witness :
    (clonedRequest bodyRequest (readRequestBody bodyRequest)).body = some [1, 2, 3] :=
  c8_body_replay ⟨1, 1, defaultSkipStatusCodes⟩ alwaysEOF bodyRequest [1, 2, 3] 2 rfl
    (clonedRequest bodyRequest (readRequestBody bodyRequest)) (by decide)

/-- C9: confirmed.  Every TLS configuration createTLSConfig of the builder can
produce — the default server-only path, the mutual-TLS path from
CreateTLSClientConfig, and either of them with insecure-skip-verify applied —
carries minimum protocol version TLS 1.2. -/
theorem c9_min_version_always_tls12
    (b : HttpClientBuilderState) (certLoadOk caReadOk caAppendOk : Bool) (c : TLSConfig)
    (h : createTLSConfig b certLoadOk caReadOk caAppendOk = .ok c) :
    c.minVersion = versionTLS12 := by
  unfold createTLSConfig at h
  split_ifs at h
  · unfold CreateTLSClientConfig at h
    split_ifs at h
    all_goals simp_all
    cases h
    rfl
  · cases h
    rfl

/-- Witness for C9: the mutual-TLS path with insecure-skip-verify enabled
still pins TLS 1.2. -/
theorem c9_min_version_always_tls12_witness :
    TLSConfig.minVersion
      { minVersion := versionTLS12, insecureSkipVerify := true,
        hasClientCert := true, hasRootCAs := true } = versionTLS12 :=
  c9_min_version_always_tls12 ⟨true, "ca.pem", "cert.pem", "key.pem"⟩ true true true
    { minVersion := versionTLS12, insecureSkipVerify := true,
      hasClientCert := true, hasRootCAs := true } rfl

/-- C10: confirmed.  createTLSConfig consults the mutual-TLS loader only when
all three of the CA, client-cert and client-key paths are non-empty: with any
of them empty the outcome ignores the load results entirely — no error, the
default server-only config, with the insecure-skip-verify flag still applied —
while with all three set it is the config of CreateTLSClientConfig with the flag
applied afterward. -/
theorem c10_incomplete_cert_material_ignored :
    (∀ (b : HttpClientBuilderState) (certLoadOk caReadOk caAppendOk : Bool),
      ¬(b.caCertPath ≠ "" ∧ b.clientCertPath ≠ "" ∧ b.clientKeyPath ≠ "") →
      createTLSConfig b certLoadOk caReadOk caAppendOk =
        .ok { minVersion := versionTLS12
              insecureSkipVerify := b.insecureSkipVerify
              hasClientCert := false
              hasRootCAs := false }) ∧
    (∀ (b : HttpClientBuilderState) (certLoadOk caReadOk caAppendOk : Bool) (c : TLSConfig),
      (b.caCertPath ≠ "" ∧ b.clientCertPath ≠ "" ∧ b.clientKeyPath ≠ "") →
      CreateTLSClientConfig certLoadOk caReadOk caAppendOk = .ok c →
      createTLSConfig b certLoadOk caReadOk caAppendOk =
        .ok { c with insecureSkipVerify := b.insecureSkipVerify }) := by
  constructor
  · intro b o1 o2 o3 h
    unfold createTLSConfig
    rw [if_neg h]
  · intro b o1 o2 o3 c h hok
    unfold createTLSConfig
    rw [if_pos h, hok]

/-- Witness for C10: with only the CA path set and every load step failing,
the builder still answers the default server-only config with the
insecure-skip-verify flag applied. -/
theorem c10_incomplete_cert_material_ignored_witness :
    createTLSConfig ⟨true, "ca.pem", "", ""⟩ false false false =
      Except.ok { minVersion := versionTLS12, insecureSkipVerify := true,
                  hasClientCert := false, hasRootCAs := false } :=
  c10_incomplete_cert_material_ignored.1 ⟨true, "ca.pem", "", ""⟩ false false false (by decide)
